import Mathlib

/-!
Verification of the editing-session engine of the vc-map-core repository.

The repository's `src/` tree contains the editor tests
(`tests/unit/util/featureconverter/pointHelpers.spec.ts`, which holds the
`startEditFeaturesSession` and `startCreateFeatureSession` suites) and the
`TranslateVertexInteraction` implementation
(`src/util/editor/interactions/translateVertexInteraction.ts`, which also
carries the editor session helper definitions `SessionType` and
`GeometryType`).  The session and transformation-handler implementations
themselves (`editFeaturesSession`, `createFeatureSession`, the translate /
rotate / scale / extrude handlers and `interactionType`) are not part of the
tree; where a definition embeds one of those, its doc comment says so and the
definition follows the specification text.
-/

/-- Modelled from the spec: a working-space coordinate (section 6, feature
geometry get/set-coordinates).  Components are exact rationals, standing for
the numeric coordinate values used by the drag scenarios. -/
structure Coord where
  x : ℚ
  y : ℚ
  z : ℚ
deriving DecidableEq

/-- Componentwise sum of two coordinates (offsetting by a delta vector). -/
def Coord.add (a b : Coord) : Coord :=
  ⟨a.x + b.x, a.y + b.y, a.z + b.z⟩

/-- Componentwise difference of two coordinates (delta between positions). -/
def Coord.sub (a b : Coord) : Coord :=
  ⟨a.x - b.x, a.y - b.y, a.z - b.z⟩

/-- Modelled from the spec: the drag lifecycle event kinds of section 4.3
(`DRAGSTART → DRAG* → DRAGEND`). -/
inductive DragKind where
  | dragstart
  | drag
  | dragend
deriving DecidableEq

/-- Modelled from the spec: a drag event delivered to a transformation
handler, carrying its kind and position (section 6, pointer dispatch). -/
structure DragEvent where
  kind : DragKind
  pos : Coord
deriving DecidableEq

/-- Geometry types, from `GeometryType` in
`src/util/editor/interactions/translateVertexInteraction.ts` (the trailing
editor-session-helpers part of the file). -/
inductive GeometryType where
  | Point
  | Circle
  | LineString
  | Polygon
  | BBox
deriving DecidableEq

namespace EFMode

/-- Modelled from the spec: the three interchangeable map backends of
section 1 (3D globe / 2D planar / oblique). -/
inductive MapType where
  | openlayers
  | oblique
  | cesium
deriving DecidableEq

/-- Modelled from the spec: `TransformationMode` of section 3. -/
inductive TMode where
  | TRANSLATE
  | ROTATE
  | SCALE
  | EXTRUDE
deriving DecidableEq

/-- Modelled from the spec: the mode-relevant state of an edit-features
session (section 4.4): the active map backend, the current mode and the log
of `modeChanged` events fired so far. -/
structure EFState where
  activeMap : MapType
  mode : TMode
  modeEvents : List TMode
deriving DecidableEq

/-- Modelled from the spec: validation of a requested mode against the active
map (sections 4.3 and 7): `EXTRUDE` on a map that is not the 3D globe is
clamped to `TRANSLATE`; every other request is kept. -/
def clampMode (mt : MapType) (m : TMode) : TMode :=
  if m = TMode.EXTRUDE ∧ mt ≠ MapType.cesium then TMode.TRANSLATE else m

/-- Modelled from the spec: `startEditFeaturesSession` (section 6) with a
requested initial mode; the initial mode is validated against the active
map. -/
def startSession (mt : MapType) (m : TMode) : EFState :=
  { activeMap := mt, mode := clampMode mt m, modeEvents := [] }

/-- Modelled from the spec: `setMode` (section 4.4): the request is validated
against the active map; if the resulting mode equals the current one the call
is a no-op firing no event, otherwise the mode is set and `modeChanged` fires
exactly once with the new mode. -/
def setMode (s : EFState) (m : TMode) : EFState :=
  if clampMode s.activeMap m = s.mode then s
  else
    { s with
      mode := clampMode s.activeMap m,
      modeEvents := s.modeEvents ++ [clampMode s.activeMap m] }

/-- Modelled from the spec: the map-change notification (sections 4.3 and
4.4): switching the active map away from the 3D globe while `EXTRUDE` is
active downgrades the mode to `TRANSLATE` via `setMode`. -/
def mapActivated (s : EFState) (mt : MapType) : EFState :=
  let s2 := { s with activeMap := mt }
  if s.mode = TMode.EXTRUDE ∧ mt ≠ MapType.cesium then setMode s2 TMode.TRANSLATE
  else s2

/-- Modelled from the spec: the session states reachable from any session
start by `setMode` calls and map-change notifications. -/
inductive EFReachable : EFState → Prop where
  | start (mt : MapType) (m : TMode) : EFReachable (startSession mt m)
  | stepSetMode {s : EFState} (m : TMode) :
      EFReachable s → EFReachable (setMode s m)
  | stepMap {s : EFState} (mt : MapType) :
      EFReachable s → EFReachable (mapActivated s mt)

/-- Modelled from the spec: the section 3 invariant, the session never holds
`EXTRUDE` while the active map is not 3D-capable. -/
def modeInvariant (s : EFState) : Prop :=
  s.mode = TMode.EXTRUDE → s.activeMap = MapType.cesium

end EFMode

namespace Translate

/-- Modelled from the spec: the translate handler state (section 4.7 item
Translate): the captured drag-start reference (start position together with
the feature coordinates at drag start) and the current coordinates of the
selected features' geometries. -/
structure TransSession where
  reference : Option (Coord × List Coord)
  features : List Coord
deriving DecidableEq

/-- Modelled from the spec: one drag-lifecycle step of the translate handler
(sections 4.3 and 4.7): `DRAGSTART` captures the reference; every `DRAG`
recomputes delta = current − drag-start from the captured reference and
offsets every captured coordinate by it; `DRAGEND` does the same and clears
the reference. -/
def translateStep (s : TransSession) (e : DragEvent) : TransSession :=
  match e.kind with
  | DragKind.dragstart => { s with reference := some (e.pos, s.features) }
  | DragKind.drag =>
    match s.reference with
    | some (p0, orig) =>
      { s with features := orig.map (fun c => Coord.add c (Coord.sub e.pos p0)) }
    | none => s
  | DragKind.dragend =>
    match s.reference with
    | some (p0, orig) =>
      { reference := none,
        features := orig.map (fun c => Coord.add c (Coord.sub e.pos p0)) }
    | none => s

/-- Runs a sequence of drag events through the translate handler. -/
def translateRun (s : TransSession) (es : List DragEvent) : TransSession :=
  es.foldl translateStep s

end Translate

namespace Scale

/-- Modelled from the spec: the single-axis handles (X, Y or Z) a scale drag
can grab (section 3, Vertex). -/
inductive Axis3 where
  | X
  | Y
  | Z
deriving DecidableEq

/-- Component of a coordinate along a handle axis. -/
def proj (a : Axis3) (c : Coord) : ℚ :=
  match a with
  | Axis3.X => c.x
  | Axis3.Y => c.y
  | Axis3.Z => c.z

/-- Modelled from the spec: a non-uniform stretch by factor `k` along the
single axis `a` about the pivot, leaving the orthogonal components untouched
(section 4.7 item Scale). -/
def scaleAlong (a : Axis3) (pivot : Coord) (k : ℚ) (c : Coord) : Coord :=
  match a with
  | Axis3.X => ⟨pivot.x + k * (c.x - pivot.x), c.y, c.z⟩
  | Axis3.Y => ⟨c.x, pivot.y + k * (c.y - pivot.y), c.z⟩
  | Axis3.Z => ⟨c.x, c.y, pivot.z + k * (c.z - pivot.z)⟩

/-- Modelled from the spec: the centroid of the combined bounding geometry of
a set of point features, the pivot of rotate/scale (section 4.7). -/
def centroid (l : List Coord) : Coord :=
  let n : ℚ := l.length
  let s := l.foldl Coord.add ⟨0, 0, 0⟩
  if n = 0 then ⟨0, 0, 0⟩ else ⟨s.x / n, s.y / n, s.z / n⟩

/-- Modelled from the spec: the scale handler state: the pivot, the captured
reference (projected reference distance together with the feature coordinates
at drag start) and the current feature coordinates. -/
structure ScaleSession where
  pivot : Coord
  reference : Option (ℚ × List Coord)
  features : List Coord
deriving DecidableEq

/-- Modelled from the spec: one drag-lifecycle step of the scale handler on
axis `a` (sections 4.3, 4.7 and 7): `DRAGSTART` captures the projected
reference distance from pivot to drag-start position; every `DRAG` and the
`DRAGEND` recompute factor = current projected distance / reference distance
from the captured reference and stretch the captured coordinates along the
single axis about the pivot; a zero reference distance is a no-op for the
drag; `DRAGEND` clears the reference. -/
def scaleStep (a : Axis3) (s : ScaleSession) (e : DragEvent) : ScaleSession :=
  match e.kind with
  | DragKind.dragstart =>
    { s with reference := some (proj a (Coord.sub e.pos s.pivot), s.features) }
  | DragKind.drag =>
    match s.reference with
    | some (r, orig) =>
      if r = 0 then s
      else
        { s with features :=
            orig.map (scaleAlong a s.pivot (proj a (Coord.sub e.pos s.pivot) / r)) }
    | none => s
  | DragKind.dragend =>
    match s.reference with
    | some (r, orig) =>
      if r = 0 then { s with reference := none }
      else
        { s with
          reference := none,
          features :=
            orig.map (scaleAlong a s.pivot (proj a (Coord.sub e.pos s.pivot) / r)) }
    | none => s

/-- Runs a sequence of drag events through the scale handler on axis `a`. -/
def scaleRun (a : Axis3) (s : ScaleSession) (es : List DragEvent) : ScaleSession :=
  es.foldl (scaleStep a) s

end Scale

namespace Extrude

/-- Modelled from the spec: the properties of the feature an extrude session
acts on (sections 3, 4.7 item Extrude): its base coordinate, the extruded
height property, the altitude mode property and the pick-disable flag. -/
structure ExtrudeFeature where
  coord : Coord
  extrudedHeight : Option ℚ
  altitudeMode : Option String
  allowPicking : Option Bool
deriving DecidableEq

/-- Modelled from the spec: the extrude handler and session state: whether
the session is still alive, the captured drag-start height, the feature, the
pre-session value of the pick-disable flag and whether an asynchronous
terrain-height sample is outstanding (sections 4.7 and 5). -/
structure ExtrudeSession where
  alive : Bool
  startHeight : Option ℚ
  feature : ExtrudeFeature
  savedAllowPicking : Option Bool
  pendingTerrain : Bool
deriving DecidableEq

/-- Modelled from the spec: one drag-lifecycle step of the extrude handler
(section 4.7 item Extrude): `DRAGSTART` captures the vertical reference;
every `DRAG` recomputes the height delta from the captured reference; on
`DRAGEND` the extruded-height property is set to the accumulated delta, the
altitude mode is forced to absolute, an asynchronous terrain sample is
requested and the reference is cleared.  The base coordinate is untouched by
the drag itself. -/
def extrudeStep (s : ExtrudeSession) (e : DragEvent) : ExtrudeSession :=
  if s.alive then
    match e.kind with
    | DragKind.dragstart => { s with startHeight := some e.pos.z }
    | DragKind.drag =>
      match s.startHeight with
      | some h0 =>
        { s with feature := { s.feature with extrudedHeight := some (e.pos.z - h0) } }
      | none => s
    | DragKind.dragend =>
      match s.startHeight with
      | some h0 =>
        { s with
          feature := { s.feature with
            extrudedHeight := some (e.pos.z - h0),
            altitudeMode := some "absolute" },
          pendingTerrain := true,
          startHeight := none }
      | none => s
  else s

/-- Runs a sequence of drag events through the extrude handler. -/
def extrudeRun (s : ExtrudeSession) (es : List DragEvent) : ExtrudeSession :=
  es.foldl extrudeStep s

/-- Modelled from the spec: the continuation of the asynchronous
`getHeightFromTerrain` call (sections 4.7, 5 and 7): once the sample resolves
with the terrain height, the continuation checks whether its session is still
alive; on a live session with an outstanding request it snaps the feature's
base coordinate onto the terrain, otherwise the stale completion is silently
discarded. -/
def resolveTerrain (s : ExtrudeSession) (terrainHeight : ℚ) : ExtrudeSession :=
  if s.alive && s.pendingTerrain then
    { s with
      feature := { s.feature with coord := { s.feature.coord with z := terrainHeight } },
      pendingTerrain := false }
  else s

/-- Modelled from the spec: `stop()` on the session (sections 5 and 7): it
synchronously clears the live drag reference state, restores the pick-disable
flag to its pre-session value and marks the session dead. -/
def stopSession (s : ExtrudeSession) : ExtrudeSession :=
  { s with
    alive := false,
    startHeight := none,
    feature := { s.feature with allowPicking := s.savedAllowPicking } }

end Extrude

namespace CreateSession

/-- Modelled from the spec: the minimum point count of each geometry type
(section 4.2): a point needs 1 coordinate, a line string 2, a polygon 3,
circle and bounding box 2. -/
def minimumPointCount : GeometryType → Nat
  | GeometryType.Point => 1
  | GeometryType.LineString => 2
  | GeometryType.Polygon => 3
  | GeometryType.Circle => 2
  | GeometryType.BBox => 2

/-- Modelled from the spec: whether a geometry type finishes automatically
once `n` coordinates were placed (section 4.2): a point finishes immediately
after the first coordinate, circle and bounding box after exactly 2; line
strings and polygons only finish on an explicit call. -/
def autoFinishAt (g : GeometryType) (n : Nat) : Bool :=
  match g with
  | GeometryType.Point => decide (1 ≤ n)
  | GeometryType.Circle => decide (2 ≤ n)
  | GeometryType.BBox => decide (2 ≤ n)
  | GeometryType.LineString => false
  | GeometryType.Polygon => false

/-- Modelled from the spec: the in-progress feature of a creation session:
its identity in the feature store and its accumulated coordinates. -/
structure CFeature where
  id : Nat
  coords : List Coord
deriving DecidableEq

/-- Modelled from the spec: the state of a creation session (section 4.2):
the geometry type, the id for the next instantiated feature, the in-progress
feature, the ids present in the target layer's feature store, the logs of
`featureCreated` and `creationFinished` events, whether the current creation
interaction is live and whether it already fired its finish, the number of
interactions in the session's interaction chain, the stopped flag, and
whether a registered `creationFinished` listener calls `stop()` during the
event. -/
structure CreateState where
  gtype : GeometryType
  nextId : Nat
  current : Option CFeature
  store : List Nat
  createdLog : List Nat
  finishedLog : List (Option Nat)
  interactionLive : Bool
  interactionDone : Bool
  chainLen : Nat
  stopped : Bool
  stopOnFinished : Bool
deriving DecidableEq

/-- Modelled from the spec: a freshly started creation session
(`startCreateFeatureSession`, section 6): an armed creation interaction in
the chain, an empty store and no in-progress feature. -/
def startCreate (g : GeometryType) (stopOnFin : Bool) : CreateState :=
  { gtype := g, nextId := 0, current := none, store := [], createdLog := [],
    finishedLog := [], interactionLive := true, interactionDone := false,
    chainLen := 1, stopped := false, stopOnFinished := stopOnFin }

/-- Modelled from the spec: the single firing of `creationFinished` for the
current creation interaction (sections 4.2 and 7): guarded so it fires at
most once per interaction; an in-progress geometry below its minimum point
count is removed from the feature store and the event carries null, otherwise
the event carries the completed feature which stays in the store; with no
in-progress feature the event carries null. -/
def fireFinishEvent (s : CreateState) : CreateState :=
  if s.interactionDone || !s.interactionLive then s
  else
    let s1 := { s with interactionDone := true }
    match s1.current with
    | some f =>
      if f.coords.length < minimumPointCount s1.gtype then
        { s1 with
          store := s1.store.filter (fun i => i ≠ f.id),
          finishedLog := s1.finishedLog ++ [none],
          current := none }
      else
        { s1 with finishedLog := s1.finishedLog ++ [some f.id], current := none }
    | none => { s1 with finishedLog := s1.finishedLog ++ [none] }

/-- Modelled from the spec: `stop()` (sections 3 and 4.2): an idempotent stop
that finishes the current interaction (the finish-once guard prevents a
second `creationFinished` when the stop runs inside the finish event), clears
the interaction chain and marks the session stopped. -/
def stopImpl (s : CreateState) : CreateState :=
  if s.stopped then s
  else
    let s1 := fireFinishEvent s
    { s1 with stopped := true, chainLen := 0, interactionLive := false }

/-- Modelled from the spec: re-arming a new empty sketch after a finished
feature (section 4.2): a fresh creation interaction replaces the finished one
in the chain. -/
def rearm (s : CreateState) : CreateState :=
  { s with interactionLive := true, interactionDone := false, chainLen := 1 }

/-- Modelled from the spec: `finish()` on the session (sections 4.2 and 7):
the current interaction fires `creationFinished` once; if a registered
listener calls `stop()` the session is torn down during the event and no new
sketch is armed, otherwise a fresh sketch begins. -/
def sessionFinish (s : CreateState) : CreateState :=
  if s.interactionDone || !s.interactionLive then s
  else
    let s1 := fireFinishEvent s
    let s2 := if s1.stopOnFinished then stopImpl s1 else s1
    if s2.stopped then { s2 with chainLen := 0, interactionLive := false }
    else rearm s2

/-- Modelled from the spec: the automatic finish after a qualifying click
when the geometry type's finish condition is met (section 4.2). -/
def maybeAutoFinish (s : CreateState) : CreateState :=
  match s.current with
  | some f => if autoFinishAt s.gtype f.coords.length then sessionFinish s else s
  | none => s

/-- Modelled from the spec: a qualifying click event (section 4.2): the first
click instantiates the in-progress feature, adds it to the feature store and
fires `featureCreated`; every click appends one coordinate; when the geometry
type's finish condition is met the sketch finishes immediately. -/
def click (s : CreateState) (pos : Coord) : CreateState :=
  if s.stopped || !s.interactionLive then s
  else
    match s.current with
    | none =>
      let f : CFeature := { id := s.nextId, coords := [pos] }
      maybeAutoFinish
        { s with
          nextId := s.nextId + 1,
          current := some f,
          store := s.store ++ [f.id],
          createdLog := s.createdLog ++ [f.id] }
    | some f =>
      maybeAutoFinish { s with current := some { f with coords := f.coords ++ [pos] } }

end CreateSession

namespace FeatureFlags

/-- Modelled from the spec: the session-relevant property state of a feature
(section 3): the pick-disable flag `olcs_allowPicking` (absent or a boolean),
the create-sync marker, and a stand-in for all the other feature state the
session must not touch. -/
structure FProps where
  allowPicking : Option Bool
  createSync : Bool
  rest : ℤ
deriving DecidableEq

/-- The feature store, giving each feature id its property state. -/
def Store : Type := Nat → FProps

/-- Modelled from the spec: restoring one saved pre-session entry (feature
id, saved pick-disable value, saved create-sync value) on the store
(section 4.4). -/
def restoreOne (st : Store) (entry : Nat × Option Bool × Bool) : Store :=
  fun i =>
    if i = entry.1 then
      { st i with allowPicking := entry.2.1, createSync := entry.2.2 }
    else st i

/-- Modelled from the spec: freshly applying the session flags to one feature
of the new set (sections 3 and 4.4): pick-disable is set to false and the
create-sync marker is set. -/
def applyFresh (st : Store) (fid : Nat) : Store :=
  fun i =>
    if i = fid then { st i with allowPicking := some false, createSync := true }
    else st i

/-- Modelled from the spec: the flag bookkeeping of an edit-features session
(section 4.4): the saved pre-session flag values of every feature currently
in the session's set. -/
structure EditSession where
  saved : List (Nat × Option Bool × Bool)
deriving DecidableEq

/-- Modelled from the spec: `setFeatures` (section 4.4): every feature
leaving the set gets its saved pre-session flag values restored; the
pre-session values of the new set are recorded and the session flags are
applied fresh to every feature of the new set. -/
def setFeatures (st : Store) (sess : EditSession) (newIds : List Nat) :
    Store × EditSession :=
  let st1 := sess.saved.foldl restoreOne st
  let saved := newIds.map (fun i => (i, (st1 i).allowPicking, (st1 i).createSync))
  let st2 := newIds.foldl applyFresh st1
  (st2, { saved := saved })

/-- Modelled from the spec: session stop restores the flags of the whole
current set, exactly like replacing the set by the empty one (section 3). -/
def stopRestores (st : Store) (sess : EditSession) : Store :=
  (setFeatures st sess []).1

end FeatureFlags

namespace TVI

/-- Event type bit flags.  Modelled from the spec and from the bitmask usage
in `src/util/editor/interactions/translateVertexInteraction.ts`
(`event.type & EventType.DRAGEND`); the `interactionType` module itself is
not in the tree, so the flags are distinct bits. -/
def CLICK : Nat := 1

/-- Drag bit flag, see `CLICK`. -/
def DRAG : Nat := 4

/-- Drag-start bit flag, see `CLICK`. -/
def DRAGSTART : Nat := 8

/-- Drag-end bit flag, see `CLICK`. -/
def DRAGEND : Nat := 16

/-- A vertex feature as `TranslateVertexInteraction` sees it: its geometry
coordinates, its `olcs_allowPicking` property (absent or a boolean), whether
the hiding `emptyStyle` is set on it, and whether it carries the
`vertexSymbol` tag. -/
structure Vertex where
  coords : List ℚ
  allowPicking : Option Bool
  hasEmptyStyle : Bool
  isVertex : Bool
deriving DecidableEq

/-- The owning feature passed to the `TranslateVertexInteraction`
constructor; only its `olcs_allowPicking` property is touched. -/
structure OwnFeature where
  allowPicking : Option Bool
deriving DecidableEq

/-- The state of a `TranslateVertexInteraction`: the held vertex (the
`_vertex` field), the owning feature (`_feature`), the number of
`vertexChanged` events raised, and the final state of the last vertex
released on `DRAGEND` (observing the in-place mutation of the shared vertex
object). -/
structure InteractionState where
  heldVertex : Option Vertex
  feature : OwnFeature
  changedCount : Nat
  lastReleased : Option Vertex
deriving DecidableEq

/-- An event piped through the interaction: its type bitmask, the feature it
carries (if any), `positionOrPixel` and the `stopPropagation` flag. -/
structure PEvent where
  etype : Nat
  feature : Option Vertex
  positionOrPixel : List ℚ
  stopPropagation : Bool
deriving DecidableEq

/-- Shallow embedding of `TranslateVertexInteraction.pipe` from
`src/util/editor/interactions/translateVertexInteraction.ts` (lines 28-52):
while a vertex is held, its geometry is set to `positionOrPixel`,
`vertexChanged` is raised, on a `DRAGEND` bit the `olcs_allowPicking`
properties of vertex and owning feature are unset, the style is cleared and
the vertex released, and `stopPropagation` is set; otherwise a `DRAGSTART`
bit with a `vertexSymbol`-tagged feature grabs the vertex, sets
`olcs_allowPicking` to false on vertex and owning feature, hides the vertex
and sets `stopPropagation`; any other event is returned unchanged. -/
def pipe (s : InteractionState) (e : PEvent) : InteractionState × PEvent :=
  match s.heldVertex with
  | some v =>
    let v2 := { v with coords := e.positionOrPixel }
    if e.etype &&& DRAGEND ≠ 0 then
      let v3 := { v2 with allowPicking := none, hasEmptyStyle := false }
      ({ s with
          heldVertex := none,
          lastReleased := some v3,
          feature := { s.feature with allowPicking := none },
          changedCount := s.changedCount + 1 },
        { e with stopPropagation := true })
    else
      ({ s with heldVertex := some v2, changedCount := s.changedCount + 1 },
        { e with stopPropagation := true })
  | none =>
    if e.etype &&& DRAGSTART ≠ 0 then
      match e.feature with
      | some v =>
        if v.isVertex then
          ({ s with
              heldVertex := some { v with allowPicking := some false, hasEmptyStyle := true },
              feature := { s.feature with allowPicking := some false } },
            { e with stopPropagation := true })
        else (s, e)
      | none => (s, e)
    else (s, e)

end TVI

namespace EFMode

/-- Helper: a clamped mode is `EXTRUDE` only when the active map is the
3D-globe backend. -/
theorem clampMode_extrude (mt : MapType) (m : TMode)
    (h : clampMode mt m = TMode.EXTRUDE) : mt = MapType.cesium := by
  unfold clampMode at h
  split at h
  · exact absurd h (by decide)
  · rename_i hc
    subst h
    by_contra hmt
    exact hc ⟨rfl, hmt⟩

/-- Helper: clamping keeps any request that is not `EXTRUDE`. -/
theorem clampMode_of_ne (mt : MapType) (m : TMode) (hm : m ≠ TMode.EXTRUDE) :
    clampMode mt m = m := by
  unfold clampMode
  rw [if_neg]
  rintro ⟨h1, -⟩
  exact hm h1

/-- Helper: a `setMode` whose validated mode equals the current one is a
complete no-op. -/
theorem setMode_noop (s : EFState) (m : TMode)
    (h : clampMode s.activeMap m = s.mode) : setMode s m = s := by
  unfold setMode
  rw [if_pos h]

/-- Helper: `setMode` with a non-extrude request always ends in that mode. -/
theorem setMode_mode_of_ne_extrude (s : EFState) (m : TMode)
    (hm : m ≠ TMode.EXTRUDE) : (setMode s m).mode = m := by
  unfold setMode
  split
  · rename_i heq
    exact heq.symm.trans (clampMode_of_ne _ _ hm)
  · exact clampMode_of_ne _ _ hm

/-- Helper: `setMode` preserves the extrude invariant. -/
theorem setMode_invariant (s : EFState) (m : TMode) (h : modeInvariant s) :
    modeInvariant (setMode s m) := by
  unfold setMode
  split
  · exact h
  · intro hmode
    exact clampMode_extrude s.activeMap m hmode

/-- Helper: the map-change handler preserves the extrude invariant. -/
theorem mapActivated_invariant (s : EFState) (mt : MapType) (_h : modeInvariant s) :
    modeInvariant (mapActivated s mt) := by
  unfold mapActivated
  split
  · intro hmode
    have h2 : (setMode { s with activeMap := mt } TMode.TRANSLATE).mode
        = TMode.TRANSLATE := setMode_mode_of_ne_extrude _ _ (by decide)
    rw [h2] at hmode
    exact absurd hmode (by decide)
  · rename_i hc
    intro hmode
    by_contra hmt
    exact hc ⟨hmode, hmt⟩

/-- Helper: every reachable session state satisfies the extrude invariant. -/
theorem reachable_invariant (s : EFState) (h : EFReachable s) : modeInvariant s := by
  induction h with
  | start mt m =>
    intro hmode
    exact clampMode_extrude mt m hmode
  | stepSetMode m _ ih => exact setMode_invariant _ m ih
  | stepMap mt _ ih => exact mapActivated_invariant _ mt ih

end EFMode

/-- Claim C1: for every reachable edit-features session state, if the active
map is not the 3D-globe (Cesium) backend then the mode is not `EXTRUDE`; an
explicit `setMode(EXTRUDE)` on a non-3D map does not take effect; and a
map-change notification away from a 3D map while `EXTRUDE` is active
downgrades the mode to `TRANSLATE` and fires `modeChanged` exactly once,
with `TRANSLATE`. -/
theorem c1_extrude_only_on_cesium :
    (∀ s : EFMode.EFState, EFMode.EFReachable s →
      s.activeMap ≠ EFMode.MapType.cesium → s.mode ≠ EFMode.TMode.EXTRUDE)
    ∧ (∀ s : EFMode.EFState, s.activeMap ≠ EFMode.MapType.cesium →
        (EFMode.setMode s EFMode.TMode.EXTRUDE).mode ≠ EFMode.TMode.EXTRUDE)
    ∧ (∀ (s : EFMode.EFState) (mt : EFMode.MapType),
        s.mode = EFMode.TMode.EXTRUDE → mt ≠ EFMode.MapType.cesium →
        (EFMode.mapActivated s mt).mode = EFMode.TMode.TRANSLATE
        ∧ (EFMode.mapActivated s mt).modeEvents
            = s.modeEvents ++ [EFMode.TMode.TRANSLATE]) := by
  refine ⟨?_, ?_, ?_⟩
  · intro s hr hmap hmode
    exact hmap (EFMode.reachable_invariant s hr hmode)
  · intro s hmap hmode
    unfold EFMode.setMode at hmode
    split at hmode
    · rename_i heq
      exact hmap (EFMode.clampMode_extrude _ _ (heq.trans hmode))
    · exact hmap (EFMode.clampMode_extrude _ _ hmode)
  · intro s mt hmode hmt
    unfold EFMode.mapActivated
    rw [if_pos ⟨hmode, hmt⟩]
    constructor
    · exact EFMode.setMode_mode_of_ne_extrude _ _ (by decide)
    · unfold EFMode.setMode
      split
      · rename_i heq
        have h2 : EFMode.clampMode mt EFMode.TMode.TRANSLATE = EFMode.TMode.TRANSLATE :=
          EFMode.clampMode_of_ne _ _ (by decide)
        exact absurd (h2.symm.trans (heq.trans hmode)) (by decide)
      · show s.modeEvents ++ [EFMode.clampMode mt EFMode.TMode.TRANSLATE]
          = s.modeEvents ++ [EFMode.TMode.TRANSLATE]
        rw [EFMode.clampMode_of_ne _ _ (by decide)]

/-- Witness for claim C1 at concrete inputs: starting in extrude mode on a 2D
map yields translate; an explicit extrude request on a 2D map does not take
effect; switching a 3D extrude session to a 2D map downgrades to translate
and fires exactly one event. -/
theorem c1_extrude_only_on_cesium_witness :
    (EFMode.startSession EFMode.MapType.openlayers EFMode.TMode.EXTRUDE).mode
        ≠ EFMode.TMode.EXTRUDE
    ∧ (EFMode.setMode (EFMode.startSession EFMode.MapType.openlayers EFMode.TMode.ROTATE)
        EFMode.TMode.EXTRUDE).mode ≠ EFMode.TMode.EXTRUDE
    ∧ ((EFMode.mapActivated ⟨EFMode.MapType.cesium, EFMode.TMode.EXTRUDE, []⟩
          EFMode.MapType.openlayers).mode = EFMode.TMode.TRANSLATE
        ∧ (EFMode.mapActivated ⟨EFMode.MapType.cesium, EFMode.TMode.EXTRUDE, []⟩
            EFMode.MapType.openlayers).modeEvents
            = ([] : List EFMode.TMode) ++ [EFMode.TMode.TRANSLATE]) :=
  ⟨c1_extrude_only_on_cesium.1 _ (EFMode.EFReachable.start _ _) (by decide),
    c1_extrude_only_on_cesium.2.1 _ (by decide),
    c1_extrude_only_on_cesium.2.2 _ _ rfl (by decide)⟩

/-- Claim C6: `setMode(m)` with `m` equal to the current mode is a complete
no-op firing no `modeChanged` event; any net mode change fires `modeChanged`
exactly once with the new mode; and calling `setMode(ROTATE)` twice in a row
fires it exactly once (the second call is a complete no-op). -/
theorem c6_setmode_once :
    (∀ (s : EFMode.EFState) (m : EFMode.TMode), EFMode.modeInvariant s →
      m = s.mode → EFMode.setMode s m = s)
    ∧ (∀ (s : EFMode.EFState) (m : EFMode.TMode),
        EFMode.clampMode s.activeMap m ≠ s.mode →
        (EFMode.setMode s m).mode = EFMode.clampMode s.activeMap m
        ∧ (EFMode.setMode s m).modeEvents
            = s.modeEvents ++ [EFMode.clampMode s.activeMap m])
    ∧ (∀ s : EFMode.EFState,
        EFMode.setMode (EFMode.setMode s EFMode.TMode.ROTATE) EFMode.TMode.ROTATE
          = EFMode.setMode s EFMode.TMode.ROTATE) := by
  refine ⟨?_, ?_, ?_⟩
  · intro s m hinv hm
    have hc : EFMode.clampMode s.activeMap m = m := by
      by_cases hex : m = EFMode.TMode.EXTRUDE
      · have hmap := hinv (hm.symm.trans hex)
        unfold EFMode.clampMode
        rw [if_neg]
        rintro ⟨-, hne⟩
        exact hne hmap
      · exact EFMode.clampMode_of_ne _ _ hex
    exact EFMode.setMode_noop _ _ (hc.trans hm)
  · intro s m hne
    unfold EFMode.setMode
    rw [if_neg hne]
    exact ⟨rfl, rfl⟩
  · intro s
    exact EFMode.setMode_noop _ _
      ((EFMode.clampMode_of_ne _ _ (by decide)).trans
        (EFMode.setMode_mode_of_ne_extrude s _ (by decide)).symm)

/-- Witness for claim C6 at concrete inputs: a repeated `ROTATE` request is a
no-op; a net change to `ROTATE` fires exactly one event; two `ROTATE` calls
in a row behave like one. -/
theorem c6_setmode_once_witness :
    (EFMode.setMode ⟨EFMode.MapType.openlayers, EFMode.TMode.ROTATE, []⟩
        EFMode.TMode.ROTATE
      = ⟨EFMode.MapType.openlayers, EFMode.TMode.ROTATE, []⟩)
    ∧ ((EFMode.setMode ⟨EFMode.MapType.openlayers, EFMode.TMode.TRANSLATE, []⟩
          EFMode.TMode.ROTATE).mode
        = EFMode.clampMode
            (EFMode.EFState.mk EFMode.MapType.openlayers EFMode.TMode.TRANSLATE []).activeMap
            EFMode.TMode.ROTATE
      ∧ (EFMode.setMode ⟨EFMode.MapType.openlayers, EFMode.TMode.TRANSLATE, []⟩
          EFMode.TMode.ROTATE).modeEvents
        = ([] : List EFMode.TMode)
            ++ [EFMode.clampMode
                (EFMode.EFState.mk EFMode.MapType.openlayers EFMode.TMode.TRANSLATE []).activeMap
                EFMode.TMode.ROTATE])
    ∧ EFMode.setMode
        (EFMode.setMode ⟨EFMode.MapType.openlayers, EFMode.TMode.TRANSLATE, []⟩
          EFMode.TMode.ROTATE) EFMode.TMode.ROTATE
      = EFMode.setMode ⟨EFMode.MapType.openlayers, EFMode.TMode.TRANSLATE, []⟩
          EFMode.TMode.ROTATE :=
  ⟨c6_setmode_once.1 _ _ (by intro h; exact absurd h (by decide)) rfl,
    c6_setmode_once.2.1 _ _ (by decide),
    c6_setmode_once.2.2 _⟩

namespace Translate

/-- Helper: a run of pure drag events never changes a captured reference. -/
theorem drags_keep_reference (ps : List Coord) (s : TransSession)
    (p0 : Coord) (orig : List Coord) (h : s.reference = some (p0, orig)) :
    (translateRun s (ps.map (fun p => ⟨DragKind.drag, p⟩))).reference
      = some (p0, orig) := by
  induction ps generalizing s with
  | nil => exact h
  | cons p t ih =>
    have hstep : (translateStep s ⟨DragKind.drag, p⟩).reference = some (p0, orig) := by
      simp [translateStep, h]
    exact ih _ hstep

end Translate

/-- Claim C2: the translate handler applies the delta computed from the
captured drag-start reference exactly once, independently of the number of
intermediate `DRAG` events (no per-event accumulation); in the concrete
scenario, a feature at (1,1,1) with `DRAGSTART` at (2,1,1), `DRAG` at
(3,1,1) and `DRAGEND` at (3,1,1) ends exactly at (2,1,1). -/
theorem c2_translate_applies_delta_once :
    (∀ (fs : List Coord) (p0 pf : Coord) (ps : List Coord),
      (Translate.translateRun ⟨none, fs⟩
          (⟨DragKind.dragstart, p0⟩ ::
            (ps.map (fun p => ⟨DragKind.drag, p⟩) ++ [⟨DragKind.dragend, pf⟩]))).features
        = fs.map (fun c => Coord.add c (Coord.sub pf p0)))
    ∧ (Translate.translateRun ⟨none, [⟨1, 1, 1⟩]⟩
        [⟨DragKind.dragstart, ⟨2, 1, 1⟩⟩, ⟨DragKind.drag, ⟨3, 1, 1⟩⟩,
          ⟨DragKind.dragend, ⟨3, 1, 1⟩⟩]).features
      = [⟨2, 1, 1⟩] := by
  constructor
  · intro fs p0 pf ps
    unfold Translate.translateRun
    rw [List.foldl_cons, List.foldl_append, List.foldl_cons, List.foldl_nil]
    have href2 := Translate.drags_keep_reference ps ⟨some (p0, fs), fs⟩ p0 fs rfl
    unfold Translate.translateRun at href2
    simp [Translate.translateStep, href2]
  · norm_num [Translate.translateRun, Translate.translateStep, Coord.add, Coord.sub]

/-- Claim C4: a scale drag on a single-axis handle stretches every coordinate
of every selected feature only along the dragged axis about the pivot, by the
factor current projected distance / reference projected distance, leaving the
orthogonal axes at factor 1; concretely, the points (1,1,0) and (-1,-1,0)
under an X-axis handle drag from (0.5,0.5,1) to (-0.5,-0.5,1) become (-1,1,0)
and (1,-1,0). -/
theorem c4_scale_single_axis :
    (∀ (pivot : Coord) (k : ℚ) (c : Coord),
      (Scale.scaleAlong Scale.Axis3.X pivot k c).y = c.y
      ∧ (Scale.scaleAlong Scale.Axis3.X pivot k c).z = c.z
      ∧ (Scale.scaleAlong Scale.Axis3.X pivot k c).x = pivot.x + k * (c.x - pivot.x))
    ∧ (∀ (a : Scale.Axis3) (s : Scale.ScaleSession) (r : ℚ) (orig : List Coord)
        (p : Coord), s.reference = some (r, orig) → r ≠ 0 →
        (Scale.scaleStep a s ⟨DragKind.drag, p⟩).features
          = orig.map (Scale.scaleAlong a s.pivot (Scale.proj a (Coord.sub p s.pivot) / r)))
    ∧ (Scale.scaleRun Scale.Axis3.X
        ⟨Scale.centroid [⟨1, 1, 0⟩, ⟨-1, -1, 0⟩], none, [⟨1, 1, 0⟩, ⟨-1, -1, 0⟩]⟩
        [⟨DragKind.dragstart, ⟨1/2, 1/2, 1⟩⟩, ⟨DragKind.drag, ⟨-1/2, -1/2, 1⟩⟩,
          ⟨DragKind.dragend, ⟨-1/2, -1/2, 1⟩⟩]).features
      = [⟨-1, 1, 0⟩, ⟨1, -1, 0⟩] := by
  refine ⟨?_, ?_, ?_⟩
  · intro pivot k c
    exact ⟨rfl, rfl, rfl⟩
  · intro a s r orig p href hr
    simp [Scale.scaleStep, href, hr]
  · norm_num [Scale.scaleRun, Scale.scaleStep, Scale.centroid, Scale.proj,
      Scale.scaleAlong, Coord.add, Coord.sub]

/-- Witness for claim C4 at a concrete input: a drag step on the X handle
with reference distance 1/2 and current projected distance -1/2. -/
theorem c4_scale_single_axis_witness :
    ((⟨⟨0, 0, 0⟩, some ((1 : ℚ)/2, [⟨1, 1, 0⟩]), [⟨1, 1, 0⟩]⟩ :
        Scale.ScaleSession).reference = some ((1 : ℚ)/2, [⟨1, 1, 0⟩]))
    ∧ ((1 : ℚ)/2 ≠ 0)
    ∧ (Scale.scaleStep Scale.Axis3.X
        ⟨⟨0, 0, 0⟩, some ((1 : ℚ)/2, [⟨1, 1, 0⟩]), [⟨1, 1, 0⟩]⟩
        ⟨DragKind.drag, ⟨-1/2, -1/2, 1⟩⟩).features
      = [⟨1, 1, 0⟩].map (Scale.scaleAlong Scale.Axis3.X ⟨0, 0, 0⟩
          (Scale.proj Scale.Axis3.X (Coord.sub ⟨-1/2, -1/2, 1⟩ ⟨0, 0, 0⟩) / ((1 : ℚ)/2))) :=
  ⟨rfl, by norm_num,
    c4_scale_single_axis.2.1 Scale.Axis3.X
      ⟨⟨0, 0, 0⟩, some ((1 : ℚ)/2, [⟨1, 1, 0⟩]), [⟨1, 1, 0⟩]⟩
      ((1 : ℚ)/2) [⟨1, 1, 0⟩] ⟨-1/2, -1/2, 1⟩ rfl (by norm_num)⟩

/-- Claim C7: in an extrude session, processing `DRAGEND` sets the feature's
extruded-height property to the accumulated vertical delta of the drag
(3 for a drag from height 1 to height 4), forces the altitude-mode property
to absolute, and leaves the base coordinate for the asynchronous
terrain-height sample, whose result is applied strictly after the `DRAGEND`
has been fully processed (the coordinate is unchanged right after `DRAGEND`
and is snapped onto the terrain only by the resolution step). -/
theorem c7_extrude_dragend :
    (∀ (f0 : Extrude.ExtrudeFeature) (saved : Option Bool) (p0 p1 : Coord) (th : ℚ),
      ((Extrude.extrudeRun ⟨true, none, f0, saved, false⟩
          [⟨DragKind.dragstart, p0⟩, ⟨DragKind.drag, p1⟩,
            ⟨DragKind.dragend, p1⟩]).feature.extrudedHeight = some (p1.z - p0.z))
      ∧ ((Extrude.extrudeRun ⟨true, none, f0, saved, false⟩
          [⟨DragKind.dragstart, p0⟩, ⟨DragKind.drag, p1⟩,
            ⟨DragKind.dragend, p1⟩]).feature.altitudeMode = some "absolute")
      ∧ ((Extrude.extrudeRun ⟨true, none, f0, saved, false⟩
          [⟨DragKind.dragstart, p0⟩, ⟨DragKind.drag, p1⟩,
            ⟨DragKind.dragend, p1⟩]).feature.coord = f0.coord)
      ∧ ((Extrude.extrudeRun ⟨true, none, f0, saved, false⟩
          [⟨DragKind.dragstart, p0⟩, ⟨DragKind.drag, p1⟩,
            ⟨DragKind.dragend, p1⟩]).pendingTerrain = true)
      ∧ ((Extrude.resolveTerrain
          (Extrude.extrudeRun ⟨true, none, f0, saved, false⟩
            [⟨DragKind.dragstart, p0⟩, ⟨DragKind.drag, p1⟩,
              ⟨DragKind.dragend, p1⟩]) th).feature.coord
        = ⟨f0.coord.x, f0.coord.y, th⟩))
    ∧ ((Extrude.extrudeRun ⟨true, none, ⟨⟨1, 1, 0⟩, none, none, none⟩, none, false⟩
        [⟨DragKind.dragstart, ⟨1, 1, 1⟩⟩, ⟨DragKind.drag, ⟨1, 1, 4⟩⟩,
          ⟨DragKind.dragend, ⟨1, 1, 4⟩⟩]).feature.extrudedHeight = some 3
      ∧ (Extrude.resolveTerrain
          (Extrude.extrudeRun ⟨true, none, ⟨⟨1, 1, 0⟩, none, none, none⟩, none, false⟩
            [⟨DragKind.dragstart, ⟨1, 1, 1⟩⟩, ⟨DragKind.drag, ⟨1, 1, 4⟩⟩,
              ⟨DragKind.dragend, ⟨1, 1, 4⟩⟩]) 1).feature.coord = ⟨1, 1, 1⟩) := by
  constructor
  · intro f0 saved p0 p1 th
    exact ⟨rfl, rfl, rfl, rfl, rfl⟩
  · constructor
    · norm_num [Extrude.extrudeRun, Extrude.extrudeStep]
    · norm_num [Extrude.extrudeRun, Extrude.extrudeStep, Extrude.resolveTerrain]

/-- Claim C9: a terrain-height sample resolving after the session was stopped
is silently discarded: it is never applied to any feature and the state is
unchanged (the continuation is total, nothing is thrown); `stop()` itself
synchronously clears the live drag reference state and restores the
pick-disable flag to its pre-session value. -/
theorem c9_stale_terrain_discarded :
    (∀ (s : Extrude.ExtrudeSession) (h : ℚ),
      Extrude.resolveTerrain (Extrude.stopSession s) h = Extrude.stopSession s)
    ∧ (∀ s : Extrude.ExtrudeSession,
      (Extrude.stopSession s).startHeight = none
      ∧ (Extrude.stopSession s).alive = false
      ∧ (Extrude.stopSession s).feature.allowPicking = s.savedAllowPicking) := by
  constructor
  · intro s h
    rfl
  · intro s
    exact ⟨rfl, rfl, rfl⟩

/-- Claim C3: for a creation session with a live, not-yet-finished interaction
and an in-progress feature, `finish()` with fewer coordinates than the
geometry type's minimum point count removes the feature from the feature
store and fires `creationFinished` exactly once with null; with the minimum
met it fires `creationFinished` exactly once with the completed feature and
the store is unchanged (the feature remains present); both paths are total,
no exception is raised. -/
theorem c3_finish_min_point_count (s : CreateSession.CreateState)
    (f : CreateSession.CFeature)
    (hl : s.interactionLive = true) (hd : s.interactionDone = false)
    (hstop : s.stopOnFinished = false) (hns : s.stopped = false)
    (hcur : s.current = some f) :
    (f.coords.length < CreateSession.minimumPointCount s.gtype →
      f.id ∉ (CreateSession.sessionFinish s).store
      ∧ (CreateSession.sessionFinish s).finishedLog = s.finishedLog ++ [none])
    ∧ (¬ f.coords.length < CreateSession.minimumPointCount s.gtype →
      (CreateSession.sessionFinish s).finishedLog = s.finishedLog ++ [some f.id]
      ∧ (CreateSession.sessionFinish s).store = s.store) := by
  constructor
  · intro hlt
    have hstore : (CreateSession.sessionFinish s).store
        = s.store.filter (fun i => i ≠ f.id) := by
      simp [CreateSession.sessionFinish, CreateSession.fireFinishEvent,
        CreateSession.stopImpl, CreateSession.rearm, hl, hd, hstop, hns, hcur, hlt]
    constructor
    · rw [hstore]
      simp
    · simp [CreateSession.sessionFinish, CreateSession.fireFinishEvent,
        CreateSession.stopImpl, CreateSession.rearm, hl, hd, hstop, hns, hcur, hlt]
  · intro hge
    constructor
    · simp [CreateSession.sessionFinish, CreateSession.fireFinishEvent,
        CreateSession.stopImpl, CreateSession.rearm, hl, hd, hstop, hns, hcur, hge]
    · simp [CreateSession.sessionFinish, CreateSession.fireFinishEvent,
        CreateSession.stopImpl, CreateSession.rearm, hl, hd, hstop, hns, hcur, hge]

/-- Witness for claim C3: in a line-string session, finishing after one click
removes the feature and logs null; finishing after two clicks logs the
feature and keeps the store. -/
theorem c3_finish_min_point_count_witness :
    ((0 : Nat) ∉ (CreateSession.sessionFinish
        (CreateSession.click
          (CreateSession.startCreate GeometryType.LineString false) ⟨1, 2, 3⟩)).store
      ∧ (CreateSession.sessionFinish
          (CreateSession.click
            (CreateSession.startCreate GeometryType.LineString false) ⟨1, 2, 3⟩)).finishedLog
        = (CreateSession.click
            (CreateSession.startCreate GeometryType.LineString false) ⟨1, 2, 3⟩).finishedLog
          ++ [none])
    ∧ ((CreateSession.sessionFinish
          (CreateSession.click
            (CreateSession.click
              (CreateSession.startCreate GeometryType.LineString false) ⟨1, 2, 3⟩)
            ⟨2, 2, 3⟩)).finishedLog
        = (CreateSession.click
            (CreateSession.click
              (CreateSession.startCreate GeometryType.LineString false) ⟨1, 2, 3⟩)
            ⟨2, 2, 3⟩).finishedLog ++ [some 0]
      ∧ (CreateSession.sessionFinish
          (CreateSession.click
            (CreateSession.click
              (CreateSession.startCreate GeometryType.LineString false) ⟨1, 2, 3⟩)
            ⟨2, 2, 3⟩)).store
        = (CreateSession.click
            (CreateSession.click
              (CreateSession.startCreate GeometryType.LineString false) ⟨1, 2, 3⟩)
            ⟨2, 2, 3⟩).store) :=
  ⟨c3_finish_min_point_count _ ⟨0, [⟨1, 2, 3⟩]⟩ rfl rfl rfl rfl rfl |>.1 (by decide),
    c3_finish_min_point_count _ ⟨0, [⟨1, 2, 3⟩, ⟨2, 2, 3⟩]⟩ rfl rfl rfl rfl rfl |>.2
      (by decide)⟩

/-- Claim C8: if a `creationFinished` listener itself calls `stop()` during
the finish triggered by a completing click (a point geometry's first click),
the session does not re-arm a new sketch: the interaction chain is empty
afterward, the session is stopped, and `creationFinished` fired exactly once
for that occurrence. -/
theorem c8_stop_in_finished_callback (s : CreateSession.CreateState) (pos : Coord)
    (hg : s.gtype = GeometryType.Point) (hl : s.interactionLive = true)
    (hd : s.interactionDone = false) (hns : s.stopped = false)
    (hcur : s.current = none) (hstop : s.stopOnFinished = true) :
    (CreateSession.click s pos).chainLen = 0
    ∧ (CreateSession.click s pos).interactionLive = false
    ∧ (CreateSession.click s pos).stopped = true
    ∧ (CreateSession.click s pos).finishedLog = s.finishedLog ++ [some s.nextId] := by
  simp [CreateSession.click, CreateSession.maybeAutoFinish, CreateSession.sessionFinish,
    CreateSession.fireFinishEvent, CreateSession.stopImpl, CreateSession.rearm,
    CreateSession.autoFinishAt, CreateSession.minimumPointCount,
    hg, hl, hd, hns, hcur, hstop]

/-- Witness for claim C8: a point session whose finished listener stops the
session, with one completing click. -/
theorem c8_stop_in_finished_callback_witness :
    (CreateSession.click (CreateSession.startCreate GeometryType.Point true)
        ⟨1, 2, 3⟩).chainLen = 0
    ∧ (CreateSession.click (CreateSession.startCreate GeometryType.Point true)
        ⟨1, 2, 3⟩).interactionLive = false
    ∧ (CreateSession.click (CreateSession.startCreate GeometryType.Point true)
        ⟨1, 2, 3⟩).stopped = true
    ∧ (CreateSession.click (CreateSession.startCreate GeometryType.Point true)
        ⟨1, 2, 3⟩).finishedLog
      = (CreateSession.startCreate GeometryType.Point true).finishedLog
        ++ [some (CreateSession.startCreate GeometryType.Point true).nextId] :=
  c8_stop_in_finished_callback _ _ rfl rfl rfl rfl rfl rfl

namespace FeatureFlags

/-- Helper: two property states with equal fields are equal. -/
theorem fprops_eq (p q : FProps) (h1 : p.allowPicking = q.allowPicking)
    (h2 : p.createSync = q.createSync) (h3 : p.rest = q.rest) : p = q := by
  cases p
  cases q
  simp_all

/-- Helper: applying the fresh session flags never touches the rest of a
feature's state. -/
theorem applyFresh_rest (st : Store) (a i : Nat) :
    ((applyFresh st a) i).rest = (st i).rest := by
  unfold applyFresh
  split <;> rfl

/-- Helper: restoring a saved entry never touches the rest of a feature's
state. -/
theorem restoreOne_rest (st : Store) (e : Nat × Option Bool × Bool) (i : Nat) :
    ((restoreOne st e) i).rest = (st i).rest := by
  unfold restoreOne
  split <;> rfl

/-- Helper: a fold of fresh-flag applications leaves every non-member of the
new set untouched. -/
theorem foldl_applyFresh_not_mem (l : List Nat) (st : Store) (g : Nat)
    (hg : g ∉ l) : (l.foldl applyFresh st) g = st g := by
  induction l generalizing st with
  | nil => rfl
  | cons a t ih =>
    have hga : g ≠ a := fun h => hg (h ▸ List.mem_cons_self a t)
    have ht : g ∉ t := fun h => hg (List.mem_cons_of_mem a h)
    rw [List.foldl_cons, ih _ ht]
    unfold applyFresh
    rw [if_neg hga]

/-- Helper: a fold of fresh-flag applications sets the flags of every member
of the new set and keeps its other state. -/
theorem foldl_applyFresh_mem (l : List Nat) (st : Store) (g : Nat)
    (hg : g ∈ l) :
    (l.foldl applyFresh st) g
      = { st g with allowPicking := some false, createSync := true } := by
  induction l generalizing st with
  | nil => cases hg
  | cons a t ih =>
    rw [List.foldl_cons]
    by_cases hgt : g ∈ t
    · rw [ih _ hgt]
      exact fprops_eq _ _ rfl rfl (applyFresh_rest st a g)
    · rcases List.mem_cons.mp hg with h | h
      · subst h
        rw [foldl_applyFresh_not_mem t _ g hgt]
        unfold applyFresh
        rw [if_pos rfl]
      · exact absurd h hgt

end FeatureFlags

/-- Claim C5: for an edit-features session, the pick-disable and create-sync
flags of a feature leaving the session's set are restored to the exact values
they had before it entered (a pre-session value comes back, an absent flag is
absent again, and all other feature state is untouched), while the flags are
freshly applied to every feature of the new set, again without touching other
feature state.  `setFeatures([])` and session stop are the special case of an
empty new set. -/
theorem c5_flags_restored (st : FeatureFlags.Store) (f : Nat) (l2 : List Nat)
    (hf : f ∉ l2) :
    (((FeatureFlags.setFeatures st ⟨[]⟩ [f]).1 f).allowPicking = some false
      ∧ ((FeatureFlags.setFeatures st ⟨[]⟩ [f]).1 f).createSync = true
      ∧ ((FeatureFlags.setFeatures st ⟨[]⟩ [f]).1 f).rest = (st f).rest)
    ∧ (FeatureFlags.setFeatures (FeatureFlags.setFeatures st ⟨[]⟩ [f]).1
        (FeatureFlags.setFeatures st ⟨[]⟩ [f]).2 l2).1 f = st f
    ∧ (∀ g ∈ l2,
        ((FeatureFlags.setFeatures (FeatureFlags.setFeatures st ⟨[]⟩ [f]).1
            (FeatureFlags.setFeatures st ⟨[]⟩ [f]).2 l2).1 g).allowPicking = some false
        ∧ ((FeatureFlags.setFeatures (FeatureFlags.setFeatures st ⟨[]⟩ [f]).1
            (FeatureFlags.setFeatures st ⟨[]⟩ [f]).2 l2).1 g).createSync = true
        ∧ ((FeatureFlags.setFeatures (FeatureFlags.setFeatures st ⟨[]⟩ [f]).1
            (FeatureFlags.setFeatures st ⟨[]⟩ [f]).2 l2).1 g).rest = (st g).rest) := by
  have hr1 : (FeatureFlags.setFeatures st ⟨[]⟩ [f]).1 f
      = { st f with allowPicking := some false, createSync := true } := by
    show FeatureFlags.applyFresh st f f = _
    unfold FeatureFlags.applyFresh
    rw [if_pos rfl]
  have hstR : (List.foldl FeatureFlags.restoreOne (FeatureFlags.setFeatures st ⟨[]⟩ [f]).1
      (FeatureFlags.setFeatures st ⟨[]⟩ [f]).2.saved) f = st f := by
    show FeatureFlags.restoreOne (FeatureFlags.applyFresh st f)
        (f, (st f).allowPicking, (st f).createSync) f = st f
    unfold FeatureFlags.restoreOne FeatureFlags.applyFresh
    rw [if_pos rfl, if_pos rfl]
  refine ⟨⟨by rw [hr1], by rw [hr1], by rw [hr1]⟩, ?_, ?_⟩
  · have h2 : (FeatureFlags.setFeatures (FeatureFlags.setFeatures st ⟨[]⟩ [f]).1
        (FeatureFlags.setFeatures st ⟨[]⟩ [f]).2 l2).1 f
        = (List.foldl FeatureFlags.restoreOne (FeatureFlags.setFeatures st ⟨[]⟩ [f]).1
            (FeatureFlags.setFeatures st ⟨[]⟩ [f]).2.saved) f :=
      FeatureFlags.foldl_applyFresh_not_mem l2 _ f hf
    exact h2.trans hstR
  · intro g hg
    have h4 : (FeatureFlags.setFeatures (FeatureFlags.setFeatures st ⟨[]⟩ [f]).1
        (FeatureFlags.setFeatures st ⟨[]⟩ [f]).2 l2).1 g
        = { (List.foldl FeatureFlags.restoreOne (FeatureFlags.setFeatures st ⟨[]⟩ [f]).1
              (FeatureFlags.setFeatures st ⟨[]⟩ [f]).2.saved) g
            with allowPicking := some false, createSync := true } :=
      FeatureFlags.foldl_applyFresh_mem l2 _ g hg
    have h5 : ((List.foldl FeatureFlags.restoreOne (FeatureFlags.setFeatures st ⟨[]⟩ [f]).1
        (FeatureFlags.setFeatures st ⟨[]⟩ [f]).2.saved) g).rest = (st g).rest := by
      have ha : ((FeatureFlags.restoreOne (FeatureFlags.applyFresh st f)
          (f, (st f).allowPicking, (st f).createSync)) g).rest
          = ((FeatureFlags.applyFresh st f) g).rest :=
        FeatureFlags.restoreOne_rest _ _ g
      exact ha.trans (FeatureFlags.applyFresh_rest st f g)
    exact ⟨by rw [h4], by rw [h4], by rw [h4]; exact h5⟩

/-- Witness for claim C5: one feature whose pick-disable flag was true and
whose create-sync marker was set before the session, replaced by a fresh
one-feature set. -/
theorem c5_flags_restored_witness :
    ((0 : Nat) ∉ [1])
    ∧ (((FeatureFlags.setFeatures (fun _ => ⟨some true, true, 7⟩) ⟨[]⟩ [0]).1 0).allowPicking
        = some false)
    ∧ ((FeatureFlags.setFeatures
          (FeatureFlags.setFeatures (fun _ => ⟨some true, true, 7⟩) ⟨[]⟩ [0]).1
          (FeatureFlags.setFeatures (fun _ => ⟨some true, true, 7⟩) ⟨[]⟩ [0]).2 [1]).1 0
        = (fun _ : Nat => (⟨some true, true, 7⟩ : FeatureFlags.FProps)) 0)
    ∧ (((FeatureFlags.setFeatures
          (FeatureFlags.setFeatures (fun _ => ⟨some true, true, 7⟩) ⟨[]⟩ [0]).1
          (FeatureFlags.setFeatures (fun _ => ⟨some true, true, 7⟩) ⟨[]⟩ [0]).2 [1]).1 1).createSync
        = true) :=
  have h := c5_flags_restored (fun _ => ⟨some true, true, 7⟩) 0 [1] (by decide)
  ⟨by decide, h.1.1, h.2.1, (h.2.2 1 (by decide)).2.1⟩

/-- Claim C10: `TranslateVertexInteraction.pipe` begins a vertex drag only
for a `DRAGSTART` event whose feature carries the vertex symbol tag — any
event arriving while no vertex is held that does not satisfy this is
returned unchanged (state untouched, `stopPropagation` left as it was);
while a vertex is held every piped event sets the vertex geometry to
`positionOrPixel`, raises `vertexChanged` and sets `stopPropagation`; on
`DRAGEND` the `olcs_allowPicking` properties of both the vertex and the
owning feature are unset and the held vertex is released. -/
theorem c10_translate_vertex_pipe :
    (∀ (s : TVI.InteractionState) (e : TVI.PEvent), s.heldVertex = none →
      ¬(e.etype &&& TVI.DRAGSTART ≠ 0
        ∧ ∃ v, e.feature = some v ∧ v.isVertex = true) →
      TVI.pipe s e = (s, e))
    ∧ (∀ (s : TVI.InteractionState) (e : TVI.PEvent) (v : TVI.Vertex),
        s.heldVertex = none → e.etype &&& TVI.DRAGSTART ≠ 0 →
        e.feature = some v → v.isVertex = true →
        TVI.pipe s e
          = ({ s with
                heldVertex := some { v with
                  allowPicking := some false,
                  hasEmptyStyle := true },
                feature := { s.feature with allowPicking := some false } },
              { e with stopPropagation := true }))
    ∧ (∀ (s : TVI.InteractionState) (e : TVI.PEvent) (v : TVI.Vertex),
        s.heldVertex = some v → e.etype &&& TVI.DRAGEND = 0 →
        TVI.pipe s e
          = ({ s with
                heldVertex := some { v with coords := e.positionOrPixel },
                changedCount := s.changedCount + 1 },
              { e with stopPropagation := true }))
    ∧ (∀ (s : TVI.InteractionState) (e : TVI.PEvent) (v : TVI.Vertex),
        s.heldVertex = some v → e.etype &&& TVI.DRAGEND ≠ 0 →
        TVI.pipe s e
          = ({ s with
                heldVertex := none,
                lastReleased := some { v with
                  coords := e.positionOrPixel,
                  allowPicking := none,
                  hasEmptyStyle := false },
                feature := { s.feature with allowPicking := none },
                changedCount := s.changedCount + 1 },
              { e with stopPropagation := true })) := by
  refine ⟨?_, ?_, ?_, ?_⟩
  · intro s e hnone hng
    simp only [TVI.pipe, hnone]
    by_cases hds : e.etype &&& TVI.DRAGSTART ≠ 0
    · rw [if_pos hds]
      cases hef : e.feature with
      | none => rfl
      | some v =>
        have hv : v.isVertex = false := by
          cases hb : v.isVertex
          · rfl
          · exact absurd ⟨hds, v, hef, hb⟩ hng
        simp [hv]
    · rw [if_neg hds]
  · intro s e v hnone hds hef hv
    simp only [TVI.pipe, hnone]
    rw [if_pos hds, hef]
    simp [hv]
  · intro s e v hheld hde
    simp [TVI.pipe, hheld, hde]
  · intro s e v hheld hde
    simp only [TVI.pipe, hheld]
    rw [if_pos hde]

/-- Witness for claim C10 at concrete inputs: a click with no feature while
idle is a no-op; a tagged drag-start grabs the vertex; a drag moves it; a
drag-end releases it. -/
theorem c10_translate_vertex_pipe_witness :
    (TVI.pipe ⟨none, ⟨none⟩, 0, none⟩ ⟨TVI.CLICK, none, [], false⟩
      = (⟨none, ⟨none⟩, 0, none⟩, ⟨TVI.CLICK, none, [], false⟩))
    ∧ (TVI.pipe ⟨none, ⟨none⟩, 0, none⟩
        ⟨TVI.DRAGSTART, some ⟨[0], none, false, true⟩, [1, 2], false⟩
      = (⟨some ⟨[0], some false, true, true⟩, ⟨some false⟩, 0, none⟩,
          ⟨TVI.DRAGSTART, some ⟨[0], none, false, true⟩, [1, 2], true⟩))
    ∧ (TVI.pipe ⟨some ⟨[0], some false, true, true⟩, ⟨some false⟩, 0, none⟩
        ⟨TVI.DRAG, none, [3], false⟩
      = (⟨some ⟨[3], some false, true, true⟩, ⟨some false⟩, 1, none⟩,
          ⟨TVI.DRAG, none, [3], true⟩))
    ∧ (TVI.pipe ⟨some ⟨[3], some false, true, true⟩, ⟨some false⟩, 1, none⟩
        ⟨TVI.DRAGEND, none, [4], false⟩
      = (⟨none, ⟨none⟩, 2, some ⟨[4], none, false, true⟩⟩,
          ⟨TVI.DRAGEND, none, [4], true⟩)) :=
  ⟨c10_translate_vertex_pipe.1 _ _ rfl
      (by rintro ⟨ha, -⟩; exact ha (by decide)),
    c10_translate_vertex_pipe.2.1 _ _ _ rfl (by decide) rfl rfl,
    c10_translate_vertex_pipe.2.2.1 _ _ _ rfl (by decide),
    c10_translate_vertex_pipe.2.2.2 _ _ _ rfl (by decide)⟩
